import Mathlib

/-!
Verification of the data-container model of `flojoy/flojoy_cloud.py`.

The Python module is embedded shallowly:

* `PyVal` models Python runtime values (JSON-style values plus the numpy
  scalars/arrays, pandas DataFrames and PIL images that flow through the
  module).
* Exceptions are modelled with `Except PyError`; `PyError` distinguishes
  the exception classes the module can raise (`AssertionError` raised by
  the pydantic validators, `KeyError`, `TypeError`, `ValueError`,
  `IndexError`, `AttributeError`, and pydantic `ValidationError`).
* The external collaborators (numpy, pandas, PIL, pydantic, `json`) are
  modelled on exactly the fragment of their behaviour the module
  exercises; each such definition carries a comment describing the
  modelled subset.  `json.dumps` followed by `json.loads` is modelled as
  a normalisation function `jnorm` on `PyVal`, so a built payload is
  represented by the JSON value its serialized string denotes.
-/

/-- An element stored inside a numpy ndarray: an integer, a float, a
boolean, or the `None` object (object-dtype arrays). -/
inductive PNum where
  | i (n : Int)
  | f (q : Rat)
  | b (x : Bool)
  | nil
deriving DecidableEq, Repr

/-- A numpy ndarray, as a nested structure of scalars. A well-formed
(non-ragged) array has all siblings of equal shape; `asarray` only ever
constructs such arrays. -/
inductive ND where
  | sc (v : PNum)
  | ar (xs : List ND)
deriving Repr

/-- A pandas column label: pandas uses the dict keys (strings) when a
frame is built from a mapping, and positional integer labels when it is
built from a list of rows. -/
inductive CKey where
  | str (s : String)
  | nat (n : Nat)
deriving DecidableEq, Repr

/-- Python values as used by the module: JSON-style data plus numpy
scalars (`np.integer`, `np.floating`), numpy arrays, pandas DataFrames
(column-oriented: a list of labelled columns) and PIL images (a mode
string plus the pixel array). -/
inductive PyVal where
  | none
  | bool (b : Bool)
  | int (n : Int)
  | float (q : Rat)
  | str (s : String)
  | list (xs : List PyVal)
  | dict (kvs : List (String × PyVal))
  | npInt (n : Int)
  | npFloat (q : Rat)
  | ndarray (d : ND)
  | pdDataFrame (cols : List (CKey × List PyVal))
  | pilImage (mode : String) (px : ND)
deriving Repr

/-- A pandas DataFrame: labelled columns in order. -/
abbrev Frame := List (CKey × List PyVal)

/-- The Python exceptions relevant to the module.  `validationError`
carries the list of per-field messages pydantic collected. -/
inductive PyError where
  | assertionError (msg : String)
  | keyError (k : String)
  | typeError (msg : String)
  | valueError (msg : String)
  | indexError (msg : String)
  | attributeError (msg : String)
  | validationError (msgs : List String)
deriving DecidableEq, Repr

/-- First-match association-list lookup, the model of Python dict
subscripting (keys of the dicts built here are unique). -/
def lookupStr (kvs : List (String × PyVal)) (k : String) : Option PyVal :=
  match kvs with
  | [] => Option.none
  | (k2, v) :: rest => if k2 = k then some v else lookupStr rest k

/-- `v[k]` for a string key: dict lookup raising `KeyError` when the key
is absent, `TypeError` when `v` is not subscriptable by a string. -/
def getItem (v : PyVal) (k : String) : Except PyError PyVal :=
  match v with
  | .dict kvs =>
    match lookupStr kvs k with
    | some x => .ok x
    | Option.none => .error (.keyError k)
  | .list _ => .error (.typeError "list indices must be integers or slices, not str")
  | _ => .error (.typeError "object is not subscriptable")

/-- Python `k in v` for a dict (the only shape the validators receive). -/
def hasKey (v : PyVal) (k : String) : Bool :=
  match v with
  | .dict kvs => (lookupStr kvs k).isSome
  | _ => false

/-- Python `x == s` where `s` is a string literal: true exactly when `x`
is an equal string (no other Python value compares equal to a str). -/
def isStrEq (v : PyVal) (s : String) : Bool :=
  match v with
  | .str s2 => s2 = s
  | _ => false

/-- `isinstance(v, list)`. -/
def isList (v : PyVal) : Bool :=
  match v with
  | .list _ => true
  | _ => false

/-- `isinstance(v, dict)`. -/
def isDict (v : PyVal) : Bool :=
  match v with
  | .dict _ => true
  | _ => false

/-- `isinstance(v, float)`.  Python bools are not floats; numpy floating
scalars are subclasses of `float`. -/
def isFloatInst (v : PyVal) : Bool :=
  match v with
  | .float _ => true
  | .npFloat _ => true
  | _ => false

/-- `isinstance(v, int)`.  Python bools are ints; numpy integer scalars
are not a subclass of `int` on Python 3. -/
def isIntInst (v : PyVal) : Bool :=
  match v with
  | .int _ => true
  | .bool _ => true
  | _ => false

/-- The text of `type(v)` as interpolated into the DataFrame validator
message (Python renders e.g. the str type with surrounding quotes; the
model abbreviates the rendering, which no property depends on). -/
def pyTypeName (v : PyVal) : String :=
  match v with
  | .none => "<class NoneType>"
  | .bool _ => "<class bool>"
  | .int _ => "<class int>"
  | .float _ => "<class float>"
  | .str _ => "<class str>"
  | .list _ => "<class list>"
  | .dict _ => "<class dict>"
  | .npInt _ => "<class numpy.int64>"
  | .npFloat _ => "<class numpy.float64>"
  | .ndarray _ => "<class numpy.ndarray>"
  | .pdDataFrame _ => "<class pandas.core.frame.DataFrame>"
  | .pilImage _ _ => "<class PIL.Image.Image>"

/-- Error-propagating map over a list, the model of iterating a Python
loop that may raise: stops at the first raised exception. -/
def mapME (f : α → Except PyError β) : List α → Except PyError (List β)
  | [] => .ok []
  | x :: xs =>
    match f x with
    | .error e => .error e
    | .ok y =>
      match mapME f xs with
      | .error e => .error e
      | .ok ys => .ok (y :: ys)

/-- numpy `arr.shape` (as a list).  The shape of a well-formed array is
read off the first element at each level; `asarray` guarantees
uniformity. -/
def ndShape : ND → List Nat
  | .sc _ => []
  | .ar [] => [0]
  | .ar (x :: xs) => (xs.length + 1) :: ndShape x

/-- All arrays in the list share one shape (the check `np.asarray` makes
at each nesting level; modern numpy raises for ragged input). -/
def allShapesEq : List ND → Bool
  | [] => true
  | x :: xs => xs.all (fun y => ndShape y == ndShape x)

/-- `arr.tolist()` restricted to a scalar element: numpy hands back plain
Python objects (int / float / bool / None), never numpy scalar types. -/
def pnumToPy : PNum → PyVal
  | .i n => .int n
  | .f q => .float q
  | .b x => .bool x
  | .nil => .none

mutual
/-- numpy `arr.tolist()`: nested plain lists of plain Python scalars,
preserving the dimensional (row-major) order of the array. -/
def ND.tolist : ND → PyVal
  | .sc v => pnumToPy v
  | .ar xs => .list (tolistL xs)

/-- `tolist` mapped over one level of an array. -/
def tolistL : List ND → List PyVal
  | [] => []
  | x :: xs => ND.tolist x :: tolistL xs
end

mutual
/-- Model of `np.asarray`: plain and numpy scalars become 0-d arrays,
`None` becomes a 0-d object array, lists are converted elementwise and
must be non-ragged (modern numpy raises `ValueError` for inhomogeneous
nesting).  Strings and other objects (which numpy would place in str or
object dtype arrays, never exercised by this module) are modelled as a
`TypeError`. -/
def asarray : PyVal → Except PyError ND
  | .int n => .ok (.sc (.i n))
  | .npInt n => .ok (.sc (.i n))
  | .float q => .ok (.sc (.f q))
  | .npFloat q => .ok (.sc (.f q))
  | .bool x => .ok (.sc (.b x))
  | .none => .ok (.sc .nil)
  | .ndarray d => .ok d
  | .list xs =>
    match asarrayL xs with
    | .error e => .error e
    | .ok es =>
      if allShapesEq es then .ok (.ar es)
      else .error (.valueError "requested array has an inhomogeneous shape")
  | _ => .error (.typeError "array dtype not modelled")

/-- `asarray` mapped over the elements of a list literal. -/
def asarrayL : List PyVal → Except PyError (List ND)
  | [] => .ok []
  | x :: xs =>
    match asarray x with
    | .error e => .error e
    | .ok y =>
      match asarrayL xs with
      | .error e => .error e
      | .ok ys => .ok (y :: ys)
end

/-- `arr[k]` on the innermost (third) axis during the `[:, :, k]` slice:
the element must itself be a subarray of length `> k`. -/
def takeChan (k : Nat) : ND → Except PyError ND
  | .sc _ => .error (.indexError "too many indices for array")
  | .ar chans =>
    match chans.get? k with
    | some v => .ok v
    | Option.none => .error (.indexError "index is out of bounds for axis 2")

/-- One row of the `[:, :, k]` slice. -/
def sliceRow (k : Nat) : ND → Except PyError ND
  | .sc _ => .error (.indexError "too many indices for array")
  | .ar cells =>
    match mapME (takeChan k) cells with
    | .error e => .error e
    | .ok cs => .ok (.ar cs)

/-- numpy `arr[:, :, k]`: keep axes 0 and 1, index `k` on axis 2.
`IndexError` when the array has fewer than 3 dimensions or `k` is out of
range on axis 2. -/
def sliceAx2 (d : ND) (k : Nat) : Except PyError ND :=
  match d with
  | .sc _ => .error (.indexError "too many indices for array")
  | .ar rows =>
    match mapME (sliceRow k) rows with
    | .error e => .error e
    | .ok rs => .ok (.ar rs)

/-- `arr.shape[i]`, raising `IndexError` when the tuple is too short. -/
def shapeGet (d : ND) (i : Nat) : Except PyError Nat :=
  match (ndShape d).get? i with
  | some n => .ok n
  | Option.none => .error (.indexError "tuple index out of range")

/-- `NumpyEncoder.default` (flojoy_cloud.py lines 16-23): numpy integer
scalars become plain ints, numpy floating scalars plain floats, numpy
arrays their `tolist()` form; everything else falls through to
`json.JSONEncoder.default`, which raises `TypeError` (the object is not
JSON serializable). -/
def NumpyEncoder.default (obj : PyVal) : Except PyError PyVal :=
  match obj with
  | .npInt n => .ok (.int n)
  | .npFloat q => .ok (.float q)
  | .ndarray d => .ok d.tolist
  | _ => .error (.typeError "Object is not JSON serializable")

mutual
/-- The composition `json.loads (json.dumps v, cls=NumpyEncoder)`: a
built payload string is modelled by the JSON value it denotes.  Values
the base encoder handles natively (None, bool, int, float, str, list,
dict with string keys) are kept, recursing into containers; any other
object is passed to `NumpyEncoder.default` (whose output - plain ints,
floats, or nested plain lists from `tolist` - is already in normal
form). -/
def jnorm : PyVal → Except PyError PyVal
  | .none => .ok .none
  | .bool x => .ok (.bool x)
  | .int n => .ok (.int n)
  | .float q => .ok (.float q)
  | .str s => .ok (.str s)
  | .list xs =>
    match jnormL xs with
    | .error e => .error e
    | .ok ys => .ok (.list ys)
  | .dict kvs =>
    match jnormKV kvs with
    | .error e => .error e
    | .ok kvs2 => .ok (.dict kvs2)
  | v => NumpyEncoder.default v

/-- `jnorm` over the elements of a list. -/
def jnormL : List PyVal → Except PyError (List PyVal)
  | [] => .ok []
  | x :: xs =>
    match jnorm x with
    | .error e => .error e
    | .ok y =>
      match jnormL xs with
      | .error e => .error e
      | .ok ys => .ok (y :: ys)

/-- `jnorm` over the entries of a dict (keys are already strings). -/
def jnormKV : List (String × PyVal) → Except PyError (List (String × PyVal))
  | [] => .ok []
  | (k, v) :: rest =>
    match jnorm v with
    | .error e => .error e
    | .ok v2 =>
      match jnormKV rest with
      | .error e => .error e
      | .ok rest2 => .ok ((k, v2) :: rest2)
end

/-- The seven pydantic response models of the module. -/
inductive MKind where
  | orderedPair
  | orderedTriple
  | dataFrame
  | matrix
  | grayscale
  | scalar
  | image
deriving DecidableEq, Repr

/-- The type tag each model asserts on its `dataContainer`. -/
def tagOf : MKind → String
  | .orderedPair => "OrderedPair"
  | .orderedTriple => "OrderedTriple"
  | .dataFrame => "DataFrame"
  | .matrix => "Matrix"
  | .grayscale => "Grayscale"
  | .scalar => "Scalar"
  | .image => "Image"

/-- Python `assert cond, msg`. -/
def assertPy (cond : Bool) (msg : String) : Except PyError Unit :=
  if cond then .ok () else .error (.assertionError msg)

/-- The `type_must_match` validator shared in shape by the seven models
(e.g. `OrderedPairModel.type_must_match`, lines 42-45): asserts
`dc["type"] == kind`.  The subscript raises `KeyError` when the tag is
absent (pydantic does not convert `KeyError` to a validation error). -/
def typeMustMatch (kind : String) (dc : PyVal) : Except PyError Unit :=
  match getItem dc "type" with
  | .error e => .error e
  | .ok t => assertPy (isStrEq t kind) "dataContainer type does not match."

/-- `OrderedPairModel.keys_must_match` (lines 47-53). -/
def orderedPairKeys (dc : PyVal) : Except PyError Unit := do
  assertPy (hasKey dc "x") "dataContainer does not contain \"x\" dataset."
  assertPy (hasKey dc "y") "dataContainer does not contain \"y\" dataset."
  let x ← getItem dc "x"
  assertPy (isList x) "\"x\" dataset is not a list"
  let y ← getItem dc "y"
  assertPy (isList y) "\"y\" dataset is not a list"

/-- `OrderedTripleModel.keys_must_match` (lines 64-72). -/
def orderedTripleKeys (dc : PyVal) : Except PyError Unit := do
  assertPy (hasKey dc "x") "dataContainer does not contain \"x\" dataset."
  assertPy (hasKey dc "y") "dataContainer does not contain \"y\" dataset."
  assertPy (hasKey dc "z") "dataContainer does not contain \"z\" dataset."
  let x ← getItem dc "x"
  assertPy (isList x) "\"x\" dataset is not a list"
  let y ← getItem dc "y"
  assertPy (isList y) "\"y\" dataset is not a list"
  let z ← getItem dc "z"
  assertPy (isList z) "\"z\" dataset is not a list"

/-- `DataFrameModel.keys_must_match` (lines 83-89): requires `m` to be a
dict (the message interpolates `type(dc["m"])`). -/
def dataFrameKeys (dc : PyVal) : Except PyError Unit := do
  assertPy (hasKey dc "m") "dataContainer does not contain \"m\" dataset."
  let m ← getItem dc "m"
  assertPy (isDict m) ("\"m\" dataset is not a list, type: " ++ pyTypeName m)

/-- `MatrixModel.keys_must_match` (lines 100-104). -/
def matrixKeys (dc : PyVal) : Except PyError Unit := do
  assertPy (hasKey dc "m") "dataContainer does not contain \"m\" dataset."
  let m ← getItem dc "m"
  assertPy (isList m) "\"m\" dataset is not a list"

/-- `GrayscaleModel.keys_must_match` (lines 115-119). -/
def grayscaleKeys (dc : PyVal) : Except PyError Unit := do
  assertPy (hasKey dc "m") "dataContainer does not contain \"m\" dataset."
  let m ← getItem dc "m"
  assertPy (isList m) "\"m\" dataset is not a list"

/-- `ScalarModel.keys_must_match` (lines 130-137): `c` must be present
and be a float or an int. -/
def scalarKeys (dc : PyVal) : Except PyError Unit := do
  assertPy (hasKey dc "c") "dataContainer does not contain \"c\" dataset."
  let c ← getItem dc "c"
  assertPy (isFloatInst c || isIntInst c) "\"c\" dataset is not a float or int"

/-- `ImageModel.keys_must_match` (lines 148-156). -/
def imageKeys (dc : PyVal) : Except PyError Unit := do
  assertPy (hasKey dc "r") "dataContainer does not contain \"r\" dataset."
  assertPy (hasKey dc "g") "dataContainer does not contain \"g\" dataset."
  assertPy (hasKey dc "b") "dataContainer does not contain \"b\" dataset."
  let r ← getItem dc "r"
  assertPy (isList r) "\"r\" dataset is not a list"
  let g ← getItem dc "g"
  assertPy (isList g) "\"g\" dataset is not a list"
  let b ← getItem dc "b"
  assertPy (isList b) "\"b\" dataset is not a list"

/-- Dispatch to the model's `keys_must_match` validator. -/
def keysMustMatch : MKind → PyVal → Except PyError Unit
  | .orderedPair => orderedPairKeys
  | .orderedTriple => orderedTripleKeys
  | .dataFrame => dataFrameKeys
  | .matrix => matrixKeys
  | .grayscale => grayscaleKeys
  | .scalar => scalarKeys
  | .image => imageKeys

/-- pydantic v1 wraps `AssertionError` (and `ValueError` / `TypeError`)
raised inside a validator into the collected validation messages; other
exceptions (notably `KeyError`) propagate unchanged. -/
def catchValidator (r : Except PyError Unit) : Except PyError (List String)
  :=
  match r with
  | .ok () => .ok []
  | .error (.assertionError m) => .ok [m]
  | .error (.valueError m) => .ok [m]
  | .error (.typeError m) => .ok [m]
  | .error e => .error e

/-- The validation messages the `dataContainer` field of model `mk`
produces on value `dc`: `type_must_match` runs first (validators run in
definition order) and, when it fails, `keys_must_match` is skipped. -/
def dcValidationMsgs (mk : MKind) (dc : PyVal) : Except PyError (List String) :=
  match catchValidator (typeMustMatch (tagOf mk) dc) with
  | .error e => .error e
  | .ok [] => catchValidator (keysMustMatch mk dc)
  | .ok ms => .ok ms

/-- `ContainerSchema.validate` for one kind, at the `dataContainer`
level: the two validators of the corresponding pydantic model, failing
with a `ValidationError` carrying the collected messages. -/
def validateDC (mk : MKind) (dc : PyVal) : Except PyError Unit :=
  match dcValidationMsgs mk dc with
  | .error e => .error e
  | .ok [] => .ok ()
  | .ok ms => .error (.validationError ms)

/-- Field errors of a required `str` field of `DefaultModel` (pydantic
v1 coerces numbers and bools to str; lists, dicts, None and other
objects are rejected). -/
def reqStrField (kvs : List (String × PyVal)) (name : String) : List String :=
  match lookupStr kvs name with
  | Option.none => [name ++ ": field required"]
  | some v =>
    match v with
    | .str _ => []
    | .int _ => []
    | .float _ => []
    | .bool _ => []
    | .npFloat _ => []
    | _ => [name ++ ": str type expected"]

/-- Field errors of a required `dict` field of `DefaultModel`. -/
def reqDictField (kvs : List (String × PyVal)) (name : String) : List String :=
  match lookupStr kvs name with
  | Option.none => [name ++ ": field required"]
  | some v =>
    match v with
    | .dict _ => []
    | _ => [name ++ ": value is not a valid dict"]

/-- `Model.parse_obj(response)` for the model of kind `mk`
(`DefaultModel` fields `ref`, `dataContainer`, `metadata`,
`workspaceId`, `privacy`, `location`, `note`, validated in definition
order; the subclass field `data` is an optional bare type variable,
treated as `Any`).  Messages from all fields are collected into one
`ValidationError`; a non-`ValidationError` exception raised by a
`dataContainer` validator propagates immediately. -/
def parseObj (mk : MKind) (resp : PyVal) : Except PyError Unit :=
  match resp with
  | .dict kvs =>
    let e1 := reqStrField kvs "ref"
    let e2r : Except PyError (List String) :=
      match lookupStr kvs "dataContainer" with
      | Option.none => .ok ["dataContainer: field required"]
      | some v =>
        match v with
        | .dict dkvs => dcValidationMsgs mk (.dict dkvs)
        | _ => .ok ["dataContainer: value is not a valid dict"]
    match e2r with
    | .error e => .error e
    | .ok e2 =>
      let e3 := reqDictField kvs "metadata"
      let e4 := reqStrField kvs "workspaceId"
      let e5 := reqStrField kvs "privacy"
      let e6 := reqStrField kvs "location"
      let e7 := reqStrField kvs "note"
      let all := e1 ++ e2 ++ e3 ++ e4 ++ e5 ++ e6 ++ e7
      if all.isEmpty then .ok () else .error (.validationError all)
  | _ => .error (.validationError ["__root__: value is not a valid dict"])

/-- The dispatch of `check_deserialize` (lines 159-196): the Python
`match` on `response["dataContainer"]["type"]` selects the model whose
tag the value equals; the seven cases have identical try/except shape,
modelled once via this tag table. -/
def kindOfTag (t : PyVal) : Option MKind :=
  if isStrEq t "OrderedPair" then some .orderedPair
  else if isStrEq t "OrderedTriple" then some .orderedTriple
  else if isStrEq t "DataFrame" then some .dataFrame
  else if isStrEq t "Matrix" then some .matrix
  else if isStrEq t "Grayscale" then some .grayscale
  else if isStrEq t "Scalar" then some .scalar
  else if isStrEq t "Image" then some .image
  else Option.none

/-- `check_deserialize(response)` (lines 159-196): reads
`response["dataContainer"]["type"]` (uncaught `KeyError` / `TypeError`
when those subscripts fail), dispatches to the matching model, runs
`parse_obj` catching only `ValidationError` - whose message is printed.
The returned list is the printed output; an unrecognized tag matches no
case and nothing happens. -/
def check_deserialize (response : PyVal) : Except PyError (List String) :=
  match getItem response "dataContainer" with
  | .error e => .error e
  | .ok dcv =>
    match getItem dcv "type" with
    | .error e => .error e
    | .ok t =>
      match kindOfTag t with
      | Option.none => .ok []
      | some mk =>
        match parseObj mk response with
        | .ok () => .ok []
        | .error (.validationError msgs) => .ok msgs
        | .error e => .error e

/-- `FlojoyCloud.fetch_dc` (lines 324-332) from the decoded response on:
the HTTP GET and `json.loads` are the transport collaborator, so the
model takes the decoded response as input, runs `check_deserialize` and
returns the response itself.  The result pairs the log output with the
returned value. -/
def fetch_dc (response : PyVal) : Except PyError (List String × PyVal) :=
  match check_deserialize response with
  | .error e => .error e
  | .ok logs => .ok (logs, response)

/-- The text of a pandas column label. -/
def ckeyText : CKey → String
  | .str s => s
  | .nat n => toString n

/-- Model of pandas `DataFrame.to_json()`: the column-oriented JSON text
of the frame.  The module stores this text opaquely (it is never parsed
or inspected by any code under verification - only the fact that it is
a `str` matters), so the model keeps a deterministic abbreviated
rendering. -/
def frameToJson (f : Frame) : String :=
  "to_json(" ++ String.intercalate "," (f.map fun kc => ckeyText kc.1) ++ ")"

/-- A value pandas broadcasts as a scalar cell when mixed with list
columns (anything that is neither a list nor a mapping). -/
def isScalarCell (v : PyVal) : Bool :=
  !(isList v) && !(isDict v) &&
    (match v with
     | .ndarray _ => false
     | _ => true)

/-- Length of the first list value of the dict, if any. -/
def firstListLen (kvs : List (String × PyVal)) : Option Nat :=
  match kvs with
  | [] => Option.none
  | (_, .list l) :: _ => some l.length
  | _ :: rest => firstListLen rest

/-- Model of `pd.DataFrame` on a list argument: a list of equal-length
rows becomes a positionally-labelled table (ragged rows, which pandas
pads with NaN, and mixed row types are outside the modelled subset); a
list of scalars becomes a single column labelled `0`. -/
def frameOfList (xs : List PyVal) : Except PyError Frame :=
  match xs with
  | [] => .ok []
  | x0 :: _ =>
    if xs.all isList then
      match x0 with
      | .list r0 =>
        if xs.all (fun r => match r with | .list l => l.length == r0.length | _ => false) then
          .ok ((List.range r0.length).map fun j =>
            (CKey.nat j, xs.map fun r => match r with | .list l => l.getD j .none | _ => .none))
        else .error (.valueError "ragged rows (pandas NaN padding) not modelled")
      | _ => .error (.valueError "DataFrame constructor not properly called!")
    else if xs.all isScalarCell then
      .ok [(CKey.nat 0, xs)]
    else .error (.valueError "mixed row types not modelled")

/-- Model of `pd.DataFrame` on a dict argument: list values become
columns labelled by their keys (all lists must have one length,
otherwise pandas raises `ValueError`), scalar values broadcast to that
length, a dict of only scalars raises `ValueError`; a dict whose values
are all inner dicts with identical key sequences becomes one column per
key (pandas aligns arbitrary indices; only this uniform subset is
modelled). -/
def frameOfDict (kvs : List (String × PyVal)) : Except PyError Frame :=
  if kvs.any (fun kv => isDict kv.2) then
    match kvs with
    | (_, .dict d0) :: _ =>
      if kvs.all (fun kv => match kv.2 with
          | .dict d => d.map Prod.fst == d0.map Prod.fst
          | _ => false) then
        .ok (kvs.map fun kv =>
          (CKey.str kv.1, match kv.2 with | .dict d => d.map Prod.snd | _ => []))
      else .error (.valueError "general index alignment not modelled")
    | _ => .error (.valueError "general index alignment not modelled")
  else
    match firstListLen kvs with
    | some len =>
      if kvs.all (fun kv => match kv.2 with | .list l => l.length == len | _ => true) then
        .ok (kvs.map fun kv =>
          (CKey.str kv.1,
           match kv.2 with
           | .list l => l
           | other => List.replicate len other))
      else .error (.valueError "All arrays must be of the same length")
    | Option.none =>
      if kvs.isEmpty then .ok []
      else .error (.valueError "If using all scalar values, you must pass an index")

/-- Model of the `pd.DataFrame(...)` constructor on the argument shapes
the module can produce: mappings, lists, existing frames and arrays;
a string (or any other scalar) raises
`ValueError: DataFrame constructor not properly called!`. -/
def pdDataFrameOf (v : PyVal) : Except PyError Frame :=
  match v with
  | .dict kvs => frameOfDict kvs
  | .list xs => frameOfList xs
  | .pdDataFrame f => .ok f
  | .ndarray d =>
    match d.tolist with
    | .list xs => frameOfList xs
    | _ => .error (.valueError "DataFrame constructor not properly called!")
  | _ => .error (.valueError "DataFrame constructor not properly called!")

/-- `df.drop(columns=["type"])`: removes the column, `KeyError` if it is
absent. -/
def frameDrop (f : Frame) (c : String) : Except PyError Frame :=
  if f.any (fun kc => kc.1 == CKey.str c) then
    .ok (f.filter fun kc => !(kc.1 == CKey.str c))
  else .error (.keyError c)

/-- Python `float(x)`: ints, bools and numpy scalars convert to their
float value.  A numeric string would also parse (never exercised by the
module's own flows, so strings are modelled as the `ValueError`
non-numeric strings raise); other objects raise `TypeError`. -/
def pyFloat (v : PyVal) : Except PyError Rat :=
  match v with
  | .float q => .ok q
  | .npFloat q => .ok q
  | .int n => .ok (n : Rat)
  | .npInt n => .ok (n : Rat)
  | .bool x => .ok (if x then 1 else 0)
  | .str _ => .error (.valueError "could not convert string to float")
  | _ => .error (.typeError "float() argument must be a string or a real number")

/-- `arr[i][j]` of a 2-D array. -/
def ndGet2 (a : ND) (i j : Nat) : Except PyError ND :=
  match a with
  | .ar rows =>
    match rows.get? i with
    | some (.ar cells) =>
      match cells.get? j with
      | some c => .ok c
      | Option.none => .error (.indexError "index out of bounds")
    | _ => .error (.indexError "index out of bounds")
  | .sc _ => .error (.indexError "too many indices for array")

/-- Model of `np.stack(arrs, axis=2)` as used by `to_python`: every
argument is converted with `asarray`, all must share one shape, and the
modelled subset is the 2-D case the module exercises, producing the
`h x w x len(arrs)` array with `out[i][j][k] = arrs[k][i][j]`.  A `None`
entry becomes a 0-d array whose shape cannot match the planes, giving
the shape-mismatch `ValueError`. -/
def npStackAx2 (vs : List PyVal) : Except PyError ND :=
  match mapME asarray vs with
  | .error e => .error e
  | .ok [] => .error (.valueError "need at least one array to stack")
  | .ok (a :: rest) =>
    if allShapesEq (a :: rest) then
      match ndShape a with
      | [h, w] =>
        match mapME (fun i =>
          match mapME (fun j =>
            match mapME (fun arr => ndGet2 arr i j) (a :: rest) with
            | .error e => .error e
            | .ok es => .ok (ND.ar es)) (List.range w) with
          | .error e => .error e
          | .ok cells => .ok (ND.ar cells)) (List.range h) with
        | .error e => .error e
        | .ok rows => .ok (.ar rows)
      | _ => .error (.valueError "stack on non 2-D inputs not modelled")
    else .error (.valueError "all input arrays must have the same shape")

/-- `np.uint8` applied to one element: a C-style cast, wrapping integers
modulo 256 and truncating floats toward zero before wrapping; the
`None` object raises `TypeError`. -/
def pnumU8 : PNum → Except PyError PNum
  | .i n => .ok (.i (n % 256))
  | .f q => .ok (.i ((Int.tdiv q.num (q.den : Int)) % 256))
  | .b x => .ok (.i (if x then 1 else 0))
  | .nil => .error (.typeError "int() argument must not be NoneType")

mutual
/-- `np.uint8(arr)`: elementwise cast. -/
def ndU8 : ND → Except PyError ND
  | .sc v =>
    match pnumU8 v with
    | .error e => .error e
    | .ok v2 => .ok (.sc v2)
  | .ar xs =>
    match ndU8L xs with
    | .error e => .error e
    | .ok ys => .ok (.ar ys)

/-- `ndU8` over one level of an array. -/
def ndU8L : List ND → Except PyError (List ND)
  | [] => .ok []
  | x :: xs =>
    match ndU8 x with
    | .error e => .error e
    | .ok y =>
      match ndU8L xs with
      | .error e => .error e
      | .ok ys => .ok (y :: ys)
end

/-- `Image.fromarray` on the arrays `to_python` builds: an
`h x w x 3` uint8 array yields an RGB image, `h x w x 4` an RGBA image
(other shapes, e.g. 2-D grayscale, are never produced by the module and
are modelled as PIL's `TypeError`). -/
def pilFromarray (d : ND) : Except PyError PyVal :=
  match ndShape d with
  | [_, _, 3] => .ok (.pilImage "RGB" d)
  | [_, _, 4] => .ok (.pilImage "RGBA" d)
  | _ => .error (.typeError "Cannot handle this data type")

/-- `img.convert(mode)`: on these paths `fromarray` already produced the
target mode, so the conversion is the identity; a genuine mode change is
never exercised and is left out of the model. -/
def pilConvert (v : PyVal) (mode : String) : Except PyError PyVal :=
  match v with
  | .pilImage m d =>
    if m = mode then .ok (.pilImage m d)
    else .error (.valueError "mode conversion not modelled")
  | _ => .error (.attributeError "convert")

/-- `FlojoyCloud.valid_types` (lines 218-226), in source order. -/
def validTypes : List String :=
  ["OrderedPair", "OrderedTriple", "DataFrame", "Grayscale", "Matrix",
   "Scalar", "Image"]

/-- `FlojoyCloud.create_payload(data, dc_type)` (lines 228-313).  The
result models the JSON value denoted by the returned payload string
(`json.dumps` composed with `json.loads` is `jnorm`).  The source uses
two consecutive `match` statements (the first handling only
OrderedPair); together they behave as the single dispatch written here.
Failure notes, mirroring the source:
* the leading `assert` raises `AssertionError` for an unrecognized kind
  before anything touches `data`;
* OrderedPair / OrderedTriple guard only `isinstance(data, dict)` and
  `"x" in data` (printing a hint and raising a bare `TypeError`
  otherwise); a missing `"y"` / `"z"` key surfaces as `KeyError` from
  the subscript inside `json.dumps`;
* DataFrame calls `data.to_json()` (`AttributeError` when `data` is not
  a DataFrame) and stores the resulting *string* under `"m"`;
* Image converts with `np.asarray` and slices channels 0, 1, 2, reads
  `shape[2]`, and slices channel 3 only when `shape[2] == 4`, otherwise
  the payload carries `"a": None` (serialized as JSON null). -/
def create_payload (data : PyVal) (dc_type : String) : Except PyError PyVal :=
  if dc_type ∈ validTypes then
    if dc_type = "OrderedPair" then
      if isDict data && hasKey data "x" then
        match getItem data "x" with
        | .error e => .error e
        | .ok x =>
          match getItem data "y" with
          | .error e => .error e
          | .ok y =>
            jnorm (.dict [("data", .dict
              [("type", .str "OrderedPair"), ("x", x), ("y", y)])])
      else .error (.typeError "")
    else if dc_type = "OrderedTriple" then
      if isDict data && hasKey data "x" then
        match getItem data "x" with
        | .error e => .error e
        | .ok x =>
          match getItem data "y" with
          | .error e => .error e
          | .ok y =>
            match getItem data "z" with
            | .error e => .error e
            | .ok z =>
              jnorm (.dict [("data", .dict
                [("type", .str "OrderedTriple"), ("x", x), ("y", y), ("z", z)])])
      else .error (.typeError "")
    else if dc_type = "DataFrame" then
      match data with
      | .pdDataFrame f =>
        .ok (.dict [("data", .dict
          [("type", .str "DataFrame"), ("m", .str (frameToJson f))])])
      | _ => .error (.attributeError "to_json")
    else if dc_type = "Matrix" then
      jnorm (.dict [("data", .dict [("type", .str "Matrix"), ("m", data)])])
    else if dc_type = "Grayscale" then
      jnorm (.dict [("data", .dict [("type", .str "Grayscale"), ("m", data)])])
    else if dc_type = "Scalar" then
      jnorm (.dict [("data", .dict [("type", .str "Scalar"), ("c", data)])])
    else
      match asarray data with
      | .error e => .error e
      | .ok img =>
        match sliceAx2 img 0 with
        | .error e => .error e
        | .ok r =>
          match sliceAx2 img 1 with
          | .error e => .error e
          | .ok g =>
            match sliceAx2 img 2 with
            | .error e => .error e
            | .ok b =>
              match shapeGet img 2 with
              | .error e => .error e
              | .ok ch =>
                let aRes : Except PyError PyVal :=
                  if ch = 4 then
                    match sliceAx2 img 3 with
                    | .error e => .error e
                    | .ok a => .ok (PyVal.ndarray a)
                  else .ok PyVal.none
                match aRes with
                | .error e => .error e
                | .ok aV =>
                  jnorm (.dict [("data", .dict
                    [("type", .str "Image"), ("r", .ndarray r),
                     ("g", .ndarray g), ("b", .ndarray b), ("a", aV)])])
  else
    .error (.assertionError
      ("Type " ++ dc_type ++ " not supported. Check capitals (e.g. OrderedPair)."))

/-- `FlojoyCloud.to_python(dc)` (lines 334-360).  The Python `match` on
`dc["dataContainer"]["type"]` compares the tag value against the case
literals; a value matching no case (an unrecognized tag, or a non-string
value) falls through and the method returns `None`. -/
def to_python (dc : PyVal) : Except PyError (Option PyVal) :=
  match getItem dc "dataContainer" with
  | .error e => .error e
  | .ok dcont =>
    match getItem dcont "type" with
    | .error e => .error e
    | .ok t =>
      if isStrEq t "OrderedPair" || isStrEq t "OrderedTriple" then
        match pdDataFrameOf dcont with
        | .error e => .error e
        | .ok df =>
          match frameDrop df "type" with
          | .error e => .error e
          | .ok df2 => .ok (some (.pdDataFrame df2))
      else if isStrEq t "DataFrame" || isStrEq t "Matrix"
          || isStrEq t "Grayscale" then
        match getItem dcont "m" with
        | .error e => .error e
        | .ok m =>
          match pdDataFrameOf m with
          | .error e => .error e
          | .ok df => .ok (some (.pdDataFrame df))
      else if isStrEq t "Scalar" then
        match getItem dcont "c" with
        | .error e => .error e
        | .ok c =>
          match pyFloat c with
          | .error e => .error e
          | .ok q => .ok (some (.float q))
      else if isStrEq t "Image" then
        match getItem dcont "r" with
        | .error e => .error e
        | .ok r =>
          match getItem dcont "g" with
          | .error e => .error e
          | .ok g =>
            match getItem dcont "b" with
            | .error e => .error e
            | .ok b =>
              if hasKey dcont "a" then
                match getItem dcont "a" with
                | .error e => .error e
                | .ok a =>
                  match npStackAx2 [r, g, b, a] with
                  | .error e => .error e
                  | .ok st =>
                    match ndU8 st with
                    | .error e => .error e
                    | .ok u =>
                      match pilFromarray u with
                      | .error e => .error e
                      | .ok img =>
                        match pilConvert img "RGBA" with
                        | .error e => .error e
                        | .ok img2 => .ok (some img2)
              else
                match npStackAx2 [r, g, b] with
                | .error e => .error e
                | .ok st =>
                  match ndU8 st with
                  | .error e => .error e
                  | .ok u =>
                    match pilFromarray u with
                    | .error e => .error e
                    | .ok img =>
                      match pilConvert img "RGB" with
                      | .error e => .error e
                      | .ok img2 => .ok (some img2)
      else .ok Option.none

/-- Re-keys a built payload envelope `{"data": {...}}` as the response
envelope `{"dataContainer": {...}}`, the composition step of the
round-trip property. -/
def reKey (payload : PyVal) : Except PyError PyVal :=
  match getItem payload "data" with
  | .error e => .error e
  | .ok d => .ok (.dict [("dataContainer", d)])

/-- `toNative(build(kind, value))`: build the payload, re-key the
envelope, convert back. -/
def roundtrip (data : PyVal) (kind : String) : Except PyError (Option PyVal) :=
  match create_payload data kind with
  | .error e => .error e
  | .ok p =>
    match reKey p with
    | .error e => .error e
    | .ok env => to_python env

/-- The columns of a frame, re-read as the mapping a caller would
extract (used to state equivalence of a recovered table with the
original column dict). -/
def frameColsVal (f : Frame) : PyVal :=
  .dict (f.filterMap fun kc =>
    match kc.1 with
    | .str s => some (s, .list kc.2)
    | _ => Option.none)

/-- Number of rows of a frame. -/
def frameNRows (f : Frame) : Nat :=
  match f with
  | [] => 0
  | kc :: _ => kc.2.length

/-- The rows of a frame, re-read as the nested list a caller would
extract (used to state equivalence of a recovered positional table with
the original row list). -/
def frameRowsVal (f : Frame) : PyVal :=
  .list ((List.range (frameNRows f)).map fun i =>
    .list (f.map fun kc => kc.2.getD i .none))

/-- Values `NumpyEncoder.default` handles (the three isinstance branches
of lines 17-22). -/
def isNpType (v : PyVal) : Bool :=
  match v with
  | .npInt _ => true
  | .npFloat _ => true
  | .ndarray _ => true
  | _ => false

/-- A 2-D integer list as the Python nested-list value. -/
def py2 (m : List (List Int)) : PyVal :=
  .list (m.map fun r => .list (r.map PyVal.int))

/-- A 3-D integer list (a pixel array) as the Python nested-list value. -/
def py3 (xs : List (List (List Int))) : PyVal :=
  .list (xs.map fun r => .list (r.map fun c => .list (c.map PyVal.int)))

/-- A 2-D integer list as the int-dtype ndarray `asarray` produces. -/
def nd2 (m : List (List Int)) : ND :=
  .ar (m.map fun r => .ar (r.map fun n => ND.sc (.i n)))

/-- A 3-D integer list as the int-dtype ndarray `asarray` produces. -/
def nd3 (xs : List (List (List Int))) : ND :=
  .ar (xs.map fun r => .ar (r.map fun c => .ar (c.map fun n => ND.sc (.i n))))

/-- Channel `k` of a pixel array: the 2-D plane `xs[i][j][k]`. -/
def plane (xs : List (List (List Int))) (k : Nat) : List (List Int) :=
  xs.map fun r => r.map fun c => c.getD k 0

/-- Representative OrderedPair native input `x:[1,2,3], y:[4,5,6]`. -/
def opSample : PyVal :=
  .dict [("x", .list [.int 1, .int 2, .int 3]),
         ("y", .list [.int 4, .int 5, .int 6])]

/-- Representative OrderedTriple native input. -/
def otSample : PyVal :=
  .dict [("x", .list [.int 1, .int 2, .int 3]),
         ("y", .list [.int 4, .int 5, .int 6]),
         ("z", .list [.int 7, .int 8, .int 9])]

/-- Representative Matrix / Grayscale native input `[[1,2],[3,4]]`. -/
def matSample : PyVal :=
  .list [.list [.int 1, .int 2], .list [.int 3, .int 4]]

/-- Representative DataFrame native input: a one-column frame. -/
def dfSample : Frame := [(CKey.str "a", [.int 1, .int 2])]

/-- Representative 2x2 3-channel pixel array. -/
def img3Sample : List (List (List Int)) :=
  [[[1, 2, 3], [4, 5, 6]], [[7, 8, 9], [10, 11, 12]]]

/-- Representative 2x2 4-channel pixel array. -/
def img4Sample : List (List (List Int)) :=
  [[[1, 2, 3, 4], [5, 6, 7, 8]], [[9, 10, 11, 12], [13, 14, 15, 16]]]

/-- A fully valid response envelope around a `dataContainer`. -/
def mkResp (dc : PyVal) : PyVal :=
  .dict [("ref", .str "r"), ("dataContainer", dc), ("metadata", .dict []),
         ("workspaceId", .str "w"), ("privacy", .str "private"),
         ("location", .str "l"), ("note", .str "n")]

/-! ### Helper lemmas -/

/-- A list with a member is not empty. -/
theorem isEmpty_false_of_mem {l : List String} {a : String} (h : a ∈ l) :
    l.isEmpty = false := by
  cases l with
  | nil => cases h
  | cons x xs => rfl

/-- `tolistL` is `List.map ND.tolist`. -/
theorem tolistL_eq_map (xs : List ND) : tolistL xs = xs.map ND.tolist := by
  induction xs with
  | nil => rfl
  | cons x xs ih => simp [tolistL, ih]

/-! ### C4: unsupported kinds are rejected up front -/

/-- C4: for every kind string outside the seven recognized kinds and
every input value, `create_payload` fails with the leading assertion
(`UnsupportedKindError`) - uniformly in `data`, since the assertion is
the first statement executed, before any encoding of the input. -/
theorem c4_unsupported_kind_rejected (data : PyVal) (dc_type : String)
    (h : dc_type ∉ validTypes) :
    create_payload data dc_type = .error (.assertionError
      ("Type " ++ dc_type ++ " not supported. Check capitals (e.g. OrderedPair).")) := by
  unfold create_payload
  rw [if_neg h]

/-- Witness for C4 at the concrete kind `"UnknownKind"`. -/
theorem c4_unsupported_kind_rejected_witness :
    "UnknownKind" ∉ validTypes ∧
      create_payload PyVal.none "UnknownKind" = .error (.assertionError
        "Type UnknownKind not supported. Check capitals (e.g. OrderedPair).") :=
  ⟨by decide, c4_unsupported_kind_rejected PyVal.none "UnknownKind" (by decide)⟩

/-! ### C3: build does not re-validate its own output -/

/-- C3: `create_payload` runs no container-schema validation on its
output: for the DataFrame kind, a frame input produces a payload whose
`"m"` field is the `to_json` *string* (not a mapping), which
subsequently fails `validate` for the DataFrame kind. -/
theorem c3_build_output_not_revalidated :
    create_payload (.pdDataFrame dfSample) "DataFrame"
      = .ok (.dict [("data", .dict
          [("type", .str "DataFrame"), ("m", .str (frameToJson dfSample))])])
    ∧ isDict (.str (frameToJson dfSample)) = false
    ∧ validateDC .dataFrame (.dict
        [("type", .str "DataFrame"), ("m", .str (frameToJson dfSample))])
      = .error (.validationError
          ["\"m\" dataset is not a list, type: <class str>"]) :=
  ⟨rfl, rfl, rfl⟩

/-! ### C9: the numeric encoder -/

/-- C9: `NumpyEncoder.default` maps numpy integers to plain ints, numpy
floats to plain floats, and arrays to their nested-list form preserving
row-major order (`tolist` of a level is the list of `tolist` of its
members, in order); the 2x2 integer array becomes `[[1,2],[3,4]]` with
plain ints; every other type falls through to the base encoder failure
(`TypeError`). -/
theorem c9_numeric_encoder :
    (∀ n : Int, NumpyEncoder.default (.npInt n) = .ok (.int n))
    ∧ (∀ q : Rat, NumpyEncoder.default (.npFloat q) = .ok (.float q))
    ∧ (∀ d : ND, NumpyEncoder.default (.ndarray d) = .ok d.tolist)
    ∧ (∀ xs : List ND, ND.tolist (.ar xs) = .list (xs.map ND.tolist))
    ∧ NumpyEncoder.default (.ndarray (.ar
        [.ar [.sc (.i 1), .sc (.i 2)], .ar [.sc (.i 3), .sc (.i 4)]]))
      = .ok (.list [.list [.int 1, .int 2], .list [.int 3, .int 4]])
    ∧ (∀ v : PyVal, isNpType v = false →
        NumpyEncoder.default v
          = .error (.typeError "Object is not JSON serializable")) := by
  refine ⟨fun n => rfl, fun q => rfl, fun d => rfl, ?_, rfl, ?_⟩
  · intro xs
    simp [ND.tolist, tolistL_eq_map]
  · intro v hv
    cases v <;> first | rfl | simp [isNpType] at hv

/-- Witness for C9's quantified parts at concrete values. -/
theorem c9_numeric_encoder_witness :
    NumpyEncoder.default (.npInt 7) = .ok (.int 7)
    ∧ NumpyEncoder.default (.npFloat (1/2)) = .ok (.float (1/2))
    ∧ NumpyEncoder.default (.str "x")
        = .error (.typeError "Object is not JSON serializable") :=
  ⟨c9_numeric_encoder.1 7, c9_numeric_encoder.2.1 (1/2),
   c9_numeric_encoder.2.2.2.2.2 (.str "x") rfl⟩

/-! ### C1: inbound validation failures are logged, never raised -/

/-- C1: whenever the read path reaches schema validation and validation
fails (pydantic raises `ValidationError`), `check_deserialize` catches
the error at the validation boundary and reports its messages (the
printed log), and `fetch_dc` still returns the raw decoded response
unchanged - the failure neither raises to the caller nor alters the
returned value. -/
theorem c1_inbound_validation_failure_logged (resp dcv t : PyVal)
    (mk : MKind) (msgs : List String)
    (h1 : getItem resp "dataContainer" = .ok dcv)
    (h2 : getItem dcv "type" = .ok t)
    (h3 : kindOfTag t = some mk)
    (h4 : parseObj mk resp = .error (.validationError msgs)) :
    check_deserialize resp = .ok msgs ∧ fetch_dc resp = .ok (msgs, resp) := by
  have hc : check_deserialize resp = .ok msgs := by
    simp only [check_deserialize, h1, h2, h3, h4]
  exact ⟨hc, by unfold fetch_dc; rw [hc]⟩

/-- Witness for C1: a Scalar response whose `"c"` is a string fails
validation; the message is logged and the response returned intact. -/
theorem c1_inbound_validation_failure_logged_witness :
    check_deserialize (mkResp (.dict [("type", .str "Scalar"), ("c", .str "bad")]))
      = .ok ["\"c\" dataset is not a float or int"]
    ∧ fetch_dc (mkResp (.dict [("type", .str "Scalar"), ("c", .str "bad")]))
      = .ok (["\"c\" dataset is not a float or int"],
             mkResp (.dict [("type", .str "Scalar"), ("c", .str "bad")])) :=
  c1_inbound_validation_failure_logged
    (mkResp (.dict [("type", .str "Scalar"), ("c", .str "bad")]))
    (.dict [("type", .str "Scalar"), ("c", .str "bad")])
    (.str "Scalar") .scalar ["\"c\" dataset is not a float or int"]
    rfl rfl rfl rfl

/-! ### C10: unrecognized tags are silently skipped on read -/

/-- C10: when the decoded response's `dataContainer` tag matches none of
the seven kinds, the dispatch of `check_deserialize` matches no case:
nothing is validated, nothing is logged, and `fetch_dc` hands back the
response exactly as decoded. -/
theorem c10_unknown_tag_skipped_silently (resp dcv t : PyVal)
    (h1 : getItem resp "dataContainer" = .ok dcv)
    (h2 : getItem dcv "type" = .ok t)
    (h3 : kindOfTag t = Option.none) :
    check_deserialize resp = .ok [] ∧ fetch_dc resp = .ok ([], resp) := by
  have hc : check_deserialize resp = .ok [] := by
    simp only [check_deserialize, h1, h2, h3]
  exact ⟨hc, by unfold fetch_dc; rw [hc]⟩

/-- Witness for C10 with the unrecognized tag `"Banana"`. -/
theorem c10_unknown_tag_skipped_silently_witness :
    check_deserialize (mkResp (.dict [("type", .str "Banana"), ("c", .int 3)]))
      = .ok []
    ∧ fetch_dc (mkResp (.dict [("type", .str "Banana"), ("c", .int 3)]))
      = .ok ([], mkResp (.dict [("type", .str "Banana"), ("c", .int 3)])) :=
  c10_unknown_tag_skipped_silently
    (mkResp (.dict [("type", .str "Banana"), ("c", .int 3)]))
    (.dict [("type", .str "Banana"), ("c", .int 3)])
    (.str "Banana") rfl rfl rfl

/-! ### C6: unknown kinds produce no value in `to_python` -/

/-- C6: for every container whose type tag matches none of the seven
kinds, the `match` of `to_python` falls through every case and the
method produces no value (Python returns `None`; the spec names this
outcome `UnknownKindError` and instructs the caller to treat the missing
result as an error condition). -/
theorem c6_unknown_kind_converts_to_none (dc dcont t : PyVal)
    (h1 : getItem dc "dataContainer" = .ok dcont)
    (h2 : getItem dcont "type" = .ok t)
    (h3 : kindOfTag t = Option.none) :
    to_python dc = .ok Option.none := by
  unfold kindOfTag at h3
  split_ifs at h3 with hOP hOT hDF hM hG hS hI
  all_goals try simp at h3
  simp only [Bool.not_eq_true] at hOP hOT hDF hM hG hS hI
  simp [to_python, h1, h2, hOP, hOT, hDF, hM, hG, hS, hI]

/-- Witness for C6 with the unrecognized tag `"Banana"`. -/
theorem c6_unknown_kind_converts_to_none_witness :
    to_python (mkResp (.dict [("type", .str "Banana"), ("c", .int 3)]))
      = .ok Option.none :=
  c6_unknown_kind_converts_to_none
    (mkResp (.dict [("type", .str "Banana"), ("c", .int 3)]))
    (.dict [("type", .str "Banana"), ("c", .int 3)])
    (.str "Banana") rfl rfl rfl

/-! ### C7: kind-tag mismatch fails validation -/

/-- C7: for every payload whose declared kind tag differs from the kind
being validated against, the `type_must_match` validator fails with the
tag-mismatch assertion (`TypeMismatchError`), and `parse_obj` of the
corresponding model fails with a `ValidationError` containing that
message - regardless of how valid every other field is. -/
theorem c7_tag_mismatch_fails_validation (mk : MKind)
    (kvs dkvs : List (String × PyVal)) (t : PyVal)
    (hdc : lookupStr kvs "dataContainer" = some (.dict dkvs))
    (ht : lookupStr dkvs "type" = some t)
    (hne : isStrEq t (tagOf mk) = false) :
    typeMustMatch (tagOf mk) (.dict dkvs)
      = .error (.assertionError "dataContainer type does not match.")
    ∧ ∃ msgs, parseObj mk (.dict kvs) = .error (.validationError msgs)
        ∧ "dataContainer type does not match." ∈ msgs := by
  have htm : typeMustMatch (tagOf mk) (.dict dkvs)
      = .error (.assertionError "dataContainer type does not match.") := by
    simp only [typeMustMatch, getItem, ht, assertPy, hne, Bool.false_eq_true,
      if_false]
  have hdcv : dcValidationMsgs mk (.dict dkvs)
      = .ok ["dataContainer type does not match."] := by
    simp only [dcValidationMsgs, htm, catchValidator]
  refine ⟨htm,
    reqStrField kvs "ref" ++ ["dataContainer type does not match."]
      ++ reqDictField kvs "metadata" ++ reqStrField kvs "workspaceId"
      ++ reqStrField kvs "privacy" ++ reqStrField kvs "location"
      ++ reqStrField kvs "note", ?_, ?_⟩
  · have hmem : "dataContainer type does not match."
        ∈ reqStrField kvs "ref" ++ ["dataContainer type does not match."]
          ++ reqDictField kvs "metadata" ++ reqStrField kvs "workspaceId"
          ++ reqStrField kvs "privacy" ++ reqStrField kvs "location"
          ++ reqStrField kvs "note" := by
      simp [List.mem_append]
    simp only [parseObj, hdc, hdcv]
    rw [if_neg]
    simp only [Bool.not_eq_true]
    exact isEmpty_false_of_mem hmem
  · simp [List.mem_append]

/-- Witness for C7: validating kind OrderedPair against a payload tagged
OrderedTriple whose fields are otherwise fully valid. -/
theorem c7_tag_mismatch_fails_validation_witness :
    typeMustMatch "OrderedPair"
      (.dict [("type", .str "OrderedTriple"), ("x", .list []), ("y", .list [])])
      = .error (.assertionError "dataContainer type does not match.")
    ∧ ∃ msgs, parseObj .orderedPair
        (.dict [("ref", .str "r"),
                ("dataContainer", .dict [("type", .str "OrderedTriple"),
                                         ("x", .list []), ("y", .list [])]),
                ("metadata", .dict []), ("workspaceId", .str "w"),
                ("privacy", .str "private"), ("location", .str "l"),
                ("note", .str "n")])
        = .error (.validationError msgs)
      ∧ "dataContainer type does not match." ∈ msgs :=
  c7_tag_mismatch_fails_validation .orderedPair
    [("ref", .str "r"),
     ("dataContainer", .dict [("type", .str "OrderedTriple"),
                              ("x", .list []), ("y", .list [])]),
     ("metadata", .dict []), ("workspaceId", .str "w"),
     ("privacy", .str "private"), ("location", .str "l"), ("note", .str "n")]
    [("type", .str "OrderedTriple"), ("x", .list []), ("y", .list [])]
    (.str "OrderedTriple") rfl rfl rfl

/-! ### C8: the Scalar shape check on `"c"` -/

/-- C8: `ScalarModel.keys_must_match` fails with the `ShapeError`
assertion naming `"c"` whenever the `"c"` field is neither a float nor
an int, and passes whenever `"c"` is numeric; consequently validating a
Scalar-tagged payload with a non-numeric `"c"` fails with a
`ValidationError` carrying exactly that message. -/
theorem c8_scalar_c_shape_check (dkvs : List (String × PyVal)) (v : PyVal)
    (hc : lookupStr dkvs "c" = some v) :
    (isFloatInst v = false → isIntInst v = false →
      scalarKeys (.dict dkvs)
        = .error (.assertionError "\"c\" dataset is not a float or int"))
    ∧ ((isFloatInst v = true ∨ isIntInst v = true) →
      scalarKeys (.dict dkvs) = .ok ())
    ∧ (lookupStr dkvs "type" = some (.str "Scalar") →
      isFloatInst v = false → isIntInst v = false →
      validateDC .scalar (.dict dkvs)
        = .error (.validationError ["\"c\" dataset is not a float or int"])) := by
  have hget : getItem (.dict dkvs) "c" = .ok v := by
    simp only [getItem, hc]
  have hhas : hasKey (.dict dkvs) "c" = true := by
    simp only [hasKey, hc, Option.isSome_some]
  refine ⟨?_, ?_, ?_⟩
  · intro hf hi
    simp only [scalarKeys, hhas, assertPy, if_true, hget, hf, hi,
      Bool.or_self, Bool.false_eq_true, if_false, bind, Except.bind]
  · intro hnum
    have hb : (isFloatInst v || isIntInst v) = true := by
      cases hnum with
      | inl h => simp [h]
      | inr h => simp [h]
    simp only [scalarKeys, hhas, assertPy, if_true, hget, hb, bind,
      Except.bind]
  · intro htype hf hi
    have hk : scalarKeys (.dict dkvs)
        = .error (.assertionError "\"c\" dataset is not a float or int") := by
      simp only [scalarKeys, hhas, assertPy, if_true, hget, hf, hi,
        Bool.or_self, Bool.false_eq_true, if_false, bind, Except.bind]
    have htm : typeMustMatch "Scalar" (.dict dkvs) = .ok () := by
      simp [typeMustMatch, getItem, htype, assertPy, isStrEq]
    simp only [validateDC, dcValidationMsgs, tagOf, htm, catchValidator,
      keysMustMatch, hk]

/-- Witness for C8 with `"c" = "notanumber"` (fails) and `"c" = 3.14`
(passes). -/
theorem c8_scalar_c_shape_check_witness :
    scalarKeys (.dict [("type", .str "Scalar"), ("c", .str "notanumber")])
      = .error (.assertionError "\"c\" dataset is not a float or int")
    ∧ scalarKeys (.dict [("type", .str "Scalar"), ("c", .float (314/100))])
      = .ok ()
    ∧ validateDC .scalar (.dict [("type", .str "Scalar"), ("c", .str "notanumber")])
      = .error (.validationError ["\"c\" dataset is not a float or int"]) :=
  ⟨(c8_scalar_c_shape_check
      [("type", .str "Scalar"), ("c", .str "notanumber")]
      (.str "notanumber") rfl).1 rfl rfl,
   (c8_scalar_c_shape_check
      [("type", .str "Scalar"), ("c", .float (314/100))]
      (.float (314/100)) rfl).2.1 (Or.inl rfl),
   (c8_scalar_c_shape_check
      [("type", .str "Scalar"), ("c", .str "notanumber")]
      (.str "notanumber") rfl).2.2 rfl rfl rfl⟩

/-! ### C2: the build / toNative round-trip -/

/-- C2 counterexample: the round-trip does NOT recover an equivalent
value for every kind.  For DataFrame, `create_payload` stores `"m"` as
the `to_json` string, and `to_python` feeds that string to the
`pd.DataFrame` constructor, which raises; for a 3-channel Image, the
built payload carries `"a": None`, so `to_python` takes the alpha
branch and `np.stack` fails on the mismatched `None` plane. -/
theorem c2_roundtrip_fails_dataframe_and_3ch_image :
    roundtrip (.pdDataFrame dfSample) "DataFrame"
      = .error (.valueError "DataFrame constructor not properly called!")
    ∧ roundtrip (py3 img3Sample) "Image"
      = .error (.valueError "all input arrays must have the same shape") :=
  ⟨rfl, rfl⟩

/-- C2 (amended): for the kinds other than DataFrame - and, for Image,
for 4-channel input - the round-trip recovers a value equivalent to the
original representative input: the recovered table re-reads to the
original column dict (OrderedPair / OrderedTriple) or row list (Matrix /
Grayscale), the Scalar float is returned exactly, and the RGBA image
holds exactly the original pixel array. -/
theorem c2_roundtrip_representative_kinds :
    (roundtrip opSample "OrderedPair"
        = .ok (some (.pdDataFrame
            [(CKey.str "x", [.int 1, .int 2, .int 3]),
             (CKey.str "y", [.int 4, .int 5, .int 6])]))
      ∧ frameColsVal
            [(CKey.str "x", [.int 1, .int 2, .int 3]),
             (CKey.str "y", [.int 4, .int 5, .int 6])] = opSample)
    ∧ (roundtrip otSample "OrderedTriple"
        = .ok (some (.pdDataFrame
            [(CKey.str "x", [.int 1, .int 2, .int 3]),
             (CKey.str "y", [.int 4, .int 5, .int 6]),
             (CKey.str "z", [.int 7, .int 8, .int 9])]))
      ∧ frameColsVal
            [(CKey.str "x", [.int 1, .int 2, .int 3]),
             (CKey.str "y", [.int 4, .int 5, .int 6]),
             (CKey.str "z", [.int 7, .int 8, .int 9])] = otSample)
    ∧ roundtrip (.float (314/100)) "Scalar" = .ok (some (.float (314/100)))
    ∧ (roundtrip matSample "Matrix"
        = .ok (some (.pdDataFrame
            [(CKey.nat 0, [.int 1, .int 3]), (CKey.nat 1, [.int 2, .int 4])]))
      ∧ frameRowsVal
            [(CKey.nat 0, [.int 1, .int 3]), (CKey.nat 1, [.int 2, .int 4])]
          = matSample)
    ∧ (roundtrip matSample "Grayscale"
        = .ok (some (.pdDataFrame
            [(CKey.nat 0, [.int 1, .int 3]), (CKey.nat 1, [.int 2, .int 4])]))
      ∧ frameRowsVal
            [(CKey.nat 0, [.int 1, .int 3]), (CKey.nat 1, [.int 2, .int 4])]
          = matSample)
    ∧ (roundtrip (py3 img4Sample) "Image"
        = .ok (some (.pilImage "RGBA" (nd3 img4Sample)))
      ∧ ND.tolist (nd3 img4Sample) = py3 img4Sample) :=
  ⟨⟨rfl, rfl⟩, ⟨rfl, rfl⟩, rfl, ⟨rfl, rfl⟩, ⟨rfl, rfl⟩, rfl, rfl⟩

/-! ### Lemmas for the Image channel-split (C5) -/

/-- `mapME` over a mapped list whose images all succeed. -/
theorem mapME_map_ok {α β γ : Type} (g : α → β) (f : β → Except PyError γ)
    (h : α → γ) (l : List α) (hfa : ∀ x ∈ l, f (g x) = .ok (h x)) :
    mapME f (l.map g) = .ok (l.map h) := by
  induction l with
  | nil => rfl
  | cons x xs ih =>
    simp only [List.map_cons, mapME, hfa x (List.mem_cons_self x xs),
      ih fun y hy => hfa y (List.mem_cons_of_mem x hy)]

/-- Arrays all sharing one shape pass the homogeneity check. -/
theorem allShapesEq_const {s : List Nat} (es : List ND)
    (h : ∀ y ∈ es, ndShape y = s) : allShapesEq es = true := by
  cases es with
  | nil => rfl
  | cons x xs =>
    simp only [allShapesEq, List.all_eq_true]
    intro y hy
    rw [h y (List.mem_cons_of_mem x hy), h x (List.mem_cons_self x xs)]
    exact beq_self_eq_true s

/-- Shape of a 1-D integer array. -/
theorem ndShape_intRow (c : List Int) :
    ndShape (.ar (c.map fun n => ND.sc (.i n))) = [c.length] := by
  cases c with
  | nil => rfl
  | cons n c => simp [ndShape]

/-- `asarray` of a plain 1-D integer list. -/
theorem asarray_intList (c : List Int) :
    asarray (.list (c.map PyVal.int))
      = .ok (.ar (c.map fun n => ND.sc (.i n))) := by
  have h1 : asarrayL (c.map PyVal.int) = .ok (c.map fun n => ND.sc (.i n)) := by
    induction c with
    | nil => rfl
    | cons n c ih => simp only [List.map_cons, asarrayL, asarray, ih]
  have h2 : allShapesEq (c.map fun n => ND.sc (.i n)) = true :=
    allShapesEq_const (s := []) _ (by
      intro y hy
      rcases List.mem_map.1 hy with ⟨n, _, rfl⟩
      rfl)
  simp only [asarray, h1, h2, if_true]

/-- `asarray` of a rectangular 2-D integer list (all cells of one
length). -/
theorem asarray_intRect (r : List (List Int)) (ch : Nat)
    (hc : ∀ c ∈ r, c.length = ch) :
    asarray (.list (r.map fun c => .list (c.map PyVal.int)))
      = .ok (.ar (r.map fun c => ND.ar (c.map fun n => ND.sc (.i n)))) := by
  have h1 : asarrayL (r.map fun c => .list (c.map PyVal.int))
      = .ok (r.map fun c => ND.ar (c.map fun n => ND.sc (.i n))) := by
    induction r with
    | nil => rfl
    | cons c r ih =>
      have ih2 := ih fun c2 hc2 => hc c2 (List.mem_cons_of_mem c hc2)
      simp only [List.map_cons, asarrayL, asarray_intList c, ih2]
  have h2 : allShapesEq (r.map fun c => ND.ar (c.map fun n => ND.sc (.i n)))
      = true :=
    allShapesEq_const (s := [ch]) _ (by
      intro y hy
      rcases List.mem_map.1 hy with ⟨c, hcr, rfl⟩
      rw [ndShape_intRow, hc c hcr])
  simp only [asarray, h1, h2, if_true]

/-- Shape of a non-empty rectangular 2-D integer array. -/
theorem ndShape_rect (r : List (List Int)) (w ch : Nat) (hr : r.length = w)
    (hch : ∀ c ∈ r, c.length = ch) (hw : 0 < w) :
    ndShape (.ar (r.map fun c => ND.ar (c.map fun n => ND.sc (.i n))))
      = [w, ch] := by
  cases r with
  | nil => simp at hr; omega
  | cons c rest =>
    simp only [List.map_cons, ndShape, List.length_map, ndShape_intRow,
      hch c (List.mem_cons_self c rest)]
    simp only [List.length_cons] at hr
    rw [hr]

/-- `asarray` of a rectangular pixel array is the corresponding 3-D
int array. -/
theorem asarray_py3 (xs : List (List (List Int))) (w ch : Nat)
    (hw : ∀ r ∈ xs, r.length = w)
    (hc : ∀ r ∈ xs, ∀ c ∈ r, c.length = ch) (hwpos : 0 < w) :
    asarray (py3 xs) = .ok (nd3 xs) := by
  have h1 : ∀ (ys : List (List (List Int))),
      (∀ r ∈ ys, r.length = w) → (∀ r ∈ ys, ∀ c ∈ r, c.length = ch) →
      asarrayL (ys.map fun r => .list (r.map fun c => .list (c.map PyVal.int)))
        = .ok (ys.map fun r =>
            ND.ar (r.map fun c => ND.ar (c.map fun n => ND.sc (.i n)))) := by
    intro ys
    induction ys with
    | nil => intro _ _; rfl
    | cons r rest ih =>
      intro hwy hcy
      have ihr := ih (fun a ha => hwy a (List.mem_cons_of_mem r ha))
        (fun a ha => hcy a (List.mem_cons_of_mem r ha))
      simp only [List.map_cons, asarrayL,
        asarray_intRect r ch (hcy r (List.mem_cons_self r rest)), ihr]
  have h2 : allShapesEq (xs.map fun r =>
      ND.ar (r.map fun c => ND.ar (c.map fun n => ND.sc (.i n)))) = true :=
    allShapesEq_const (s := [w, ch]) _ (by
      intro y hy
      rcases List.mem_map.1 hy with ⟨r, hrx, rfl⟩
      exact ndShape_rect r w ch (hw r hrx) (hc r hrx) hwpos)
  simp only [py3, nd3, asarray, h1 xs hw hc, h2, if_true]

/-- Indexing the innermost axis of an integer cell succeeds when the
channel index is in range, returning element `k`. -/
theorem takeChan_cell (c : List Int) (k : Nat) (hk : k < c.length) :
    takeChan k (.ar (c.map fun n => ND.sc (.i n)))
      = .ok (.sc (.i (c.getD k 0))) := by
  have h1 : (c.map fun n => ND.sc (.i n)).get? k
      = some (ND.sc (.i (c.getD k 0))) := by
    rw [List.get?_eq_getElem?, List.getElem?_map, List.getElem?_eq_getElem hk]
    simp [List.getD_eq_getElem?_getD, List.getElem?_eq_getElem hk]
  simp only [takeChan, h1]

/-- The `[:, :, k]` slice of a rectangular pixel array extracts channel
plane `k` when `k` is a valid channel index. -/
theorem sliceAx2_nd3 (xs : List (List (List Int))) (ch k : Nat)
    (hc : ∀ r ∈ xs, ∀ c ∈ r, c.length = ch) (hk : k < ch) :
    sliceAx2 (nd3 xs) k = .ok (nd2 (plane xs k)) := by
  have hrow : ∀ r ∈ xs,
      sliceRow k (ND.ar (r.map fun c => ND.ar (c.map fun n => ND.sc (.i n))))
        = .ok (.ar (r.map fun c => ND.sc (.i (c.getD k 0)))) := by
    intro r hr
    have hcell : ∀ c ∈ r,
        takeChan k (ND.ar (c.map fun n => ND.sc (.i n)))
          = .ok (.sc (.i (c.getD k 0))) := by
      intro c hcr
      exact takeChan_cell c k (by rw [hc r hr c hcr]; exact hk)
    simp only [sliceRow,
      mapME_map_ok (fun c => ND.ar (c.map fun n => ND.sc (.i n)))
        (takeChan k) (fun c => ND.sc (.i (c.getD k 0))) r hcell]
  simp only [nd3, sliceAx2,
    mapME_map_ok (fun r => ND.ar (r.map fun c => ND.ar (c.map fun n => ND.sc (.i n))))
      (sliceRow k) (fun r => ND.ar (r.map fun c => ND.sc (.i (c.getD k 0))))
      xs hrow]
  simp [nd2, plane, List.map_map, Function.comp]

/-- The `[:, :, k]` slice fails with `IndexError` when `k` is out of
range on the channel axis. -/
theorem sliceAx2_nd3_fail (xs : List (List (List Int))) (w ch k : Nat)
    (hpos : 0 < xs.length) (hw : ∀ r ∈ xs, r.length = w) (hwpos : 0 < w)
    (hc : ∀ r ∈ xs, ∀ c ∈ r, c.length = ch) (hk : ch ≤ k) :
    sliceAx2 (nd3 xs) k
      = .error (.indexError "index is out of bounds for axis 2") := by
  cases xs with
  | nil => simp at hpos
  | cons r rest =>
    cases r with
    | nil =>
      have := hw [] (List.mem_cons_self [] rest)
      simp at this
      omega
    | cons c rcells =>
      have hcl : c.length = ch :=
        hc (c :: rcells) (List.mem_cons_self _ rest) c
          (List.mem_cons_self c rcells)
      have hnone : (c.map fun n => ND.sc (.i n)).get? k = Option.none := by
        rw [List.get?_eq_none]
        simp only [List.length_map]
        omega
      simp only [nd3, sliceAx2, List.map_cons, mapME, sliceRow, takeChan,
        hnone]

/-- `shape[2]` of a non-empty rectangular pixel array is the channel
count. -/
theorem shapeGet_nd3 (xs : List (List (List Int))) (w ch : Nat)
    (hpos : 0 < xs.length) (hwpos : 0 < w)
    (hw : ∀ r ∈ xs, r.length = w)
    (hc : ∀ r ∈ xs, ∀ c ∈ r, c.length = ch) :
    shapeGet (nd3 xs) 2 = .ok ch := by
  cases xs with
  | nil => simp at hpos
  | cons r rest =>
    have hsh := ndShape_rect r w ch (hw r (List.mem_cons_self r rest))
      (hc r (List.mem_cons_self r rest)) hwpos
    simp only [nd3, shapeGet, ndShape, List.map_cons, hsh]
    rfl

/-- `tolist` of the 2-D int array built from a plane is the plain
nested-list value of the plane. -/
theorem tolist_nd2 (m : List (List Int)) : ND.tolist (nd2 m) = py2 m := by
  simp [nd2, py2, ND.tolist, tolistL_eq_map, List.map_map, Function.comp,
    pnumToPy]

/-! ### C5: the Image channel split in `create_payload` -/

/-- C5 counterexample to the claim as stated: for a 3-channel input the
built payload does NOT leave the optional `"a"` key out - it carries
an explicit `"a": None` entry (serialized as JSON null), so the key is
present even though no alpha plane exists. -/
theorem c5_alpha_key_present_for_3_channels :
    create_payload (py3 img3Sample) "Image"
      = .ok (.dict [("data", .dict
          [("type", .str "Image"),
           ("r", py2 [[1, 4], [7, 10]]), ("g", py2 [[2, 5], [8, 11]]),
           ("b", py2 [[3, 6], [9, 12]]), ("a", PyVal.none)])])
    ∧ hasKey (.dict
          [("type", .str "Image"),
           ("r", py2 [[1, 4], [7, 10]]), ("g", py2 [[2, 5], [8, 11]]),
           ("b", py2 [[3, 6], [9, 12]]), ("a", PyVal.none)]) "a" = true :=
  ⟨rfl, rfl⟩

/-- C5 (amended): building an Image payload from a non-empty rectangular
`h x w x ch` pixel array splits it into 2-D planes in the fixed channel
order 0=red, 1=green, 2=blue, 3=alpha: for 3 channels the payload holds
the r/g/b planes and an explicit null `"a"` entry (no alpha plane); for
4 channels the `"a"` entry is the alpha plane; for fewer than 3 channels
the build fails (the `ShapeError` of the spec surfaces as the
`IndexError` numpy raises while slicing a missing channel). -/
theorem c5_image_channel_split (xs : List (List (List Int))) (w ch : Nat)
    (hpos : 0 < xs.length) (hw : ∀ r ∈ xs, r.length = w) (hwpos : 0 < w)
    (hc : ∀ r ∈ xs, ∀ c ∈ r, c.length = ch) :
    (ch = 3 → create_payload (py3 xs) "Image"
      = .ok (.dict [("data", .dict
          [("type", .str "Image"), ("r", py2 (plane xs 0)),
           ("g", py2 (plane xs 1)), ("b", py2 (plane xs 2)),
           ("a", PyVal.none)])]))
    ∧ (ch = 4 → create_payload (py3 xs) "Image"
      = .ok (.dict [("data", .dict
          [("type", .str "Image"), ("r", py2 (plane xs 0)),
           ("g", py2 (plane xs 1)), ("b", py2 (plane xs 2)),
           ("a", py2 (plane xs 3))])]))
    ∧ (ch < 3 → create_payload (py3 xs) "Image"
      = .error (.indexError "index is out of bounds for axis 2")) := by
  refine ⟨?_, ?_, ?_⟩
  · intro hch; subst hch
    have ha := asarray_py3 xs w 3 hw hc hwpos
    have h0 := sliceAx2_nd3 xs 3 0 hc (by omega)
    have h1 := sliceAx2_nd3 xs 3 1 hc (by omega)
    have h2 := sliceAx2_nd3 xs 3 2 hc (by omega)
    have hs := shapeGet_nd3 xs w 3 hpos hwpos hw hc
    simp [create_payload, validTypes, ha, h0, h1, h2, hs, jnorm, jnormKV,
      jnormL, NumpyEncoder.default, tolist_nd2]
  · intro hch; subst hch
    have ha := asarray_py3 xs w 4 hw hc hwpos
    have h0 := sliceAx2_nd3 xs 4 0 hc (by omega)
    have h1 := sliceAx2_nd3 xs 4 1 hc (by omega)
    have h2 := sliceAx2_nd3 xs 4 2 hc (by omega)
    have h3 := sliceAx2_nd3 xs 4 3 hc (by omega)
    have hs := shapeGet_nd3 xs w 4 hpos hwpos hw hc
    simp [create_payload, validTypes, ha, h0, h1, h2, h3, hs, jnorm, jnormKV,
      jnormL, NumpyEncoder.default, tolist_nd2]
  · intro hlt
    interval_cases ch
    · have ha := asarray_py3 xs w 0 hw hc hwpos
      have hf := sliceAx2_nd3_fail xs w 0 0 hpos hw hwpos hc (by omega)
      simp [create_payload, validTypes, ha, hf]
    · have ha := asarray_py3 xs w 1 hw hc hwpos
      have h0 := sliceAx2_nd3 xs 1 0 hc (by omega)
      have hf := sliceAx2_nd3_fail xs w 1 1 hpos hw hwpos hc (by omega)
      simp [create_payload, validTypes, ha, h0, hf]
    · have ha := asarray_py3 xs w 2 hw hc hwpos
      have h0 := sliceAx2_nd3 xs 2 0 hc (by omega)
      have h1 := sliceAx2_nd3 xs 2 1 hc (by omega)
      have hf := sliceAx2_nd3_fail xs w 2 2 hpos hw hwpos hc (by omega)
      simp [create_payload, validTypes, ha, h0, h1, hf]

/-- Witness for C5 on concrete 2x2 pixel arrays: the 3-channel split,
the 4-channel split with a real alpha plane, and the failure on a
2-channel input. -/
theorem c5_image_channel_split_witness :
    create_payload (py3 img3Sample) "Image"
      = .ok (.dict [("data", .dict
          [("type", .str "Image"), ("r", py2 (plane img3Sample 0)),
           ("g", py2 (plane img3Sample 1)), ("b", py2 (plane img3Sample 2)),
           ("a", PyVal.none)])])
    ∧ create_payload (py3 img4Sample) "Image"
      = .ok (.dict [("data", .dict
          [("type", .str "Image"), ("r", py2 (plane img4Sample 0)),
           ("g", py2 (plane img4Sample 1)), ("b", py2 (plane img4Sample 2)),
           ("a", py2 (plane img4Sample 3))])])
    ∧ create_payload (py3 [[[1, 2], [3, 4]], [[5, 6], [7, 8]]]) "Image"
      = .error (.indexError "index is out of bounds for axis 2") :=
  ⟨(c5_image_channel_split img3Sample 2 3 (by decide)
      (by decide) (by decide) (by decide)).1 rfl,
   (c5_image_channel_split img4Sample 2 4 (by decide)
      (by decide) (by decide) (by decide)).2.1 rfl,
   (c5_image_channel_split [[[1, 2], [3, 4]], [[5, 6], [7, 8]]] 2 2
      (by decide) (by decide) (by decide) (by decide)).2.2 (by decide)⟩
